import Mathlib

/-!
Verification of the polling/state-transition/deduplication engine of a
YouTube-livestream Discord bot (src/index.js) against its specification.

The JavaScript source is shallowly embedded: every external effect
(YouTube API responses, Discord channel fetch/send outcomes, wall-clock
time) is passed in explicitly as data, and each handler becomes a pure
Lean function over that data.  Timestamps are modelled as `Nat`
milliseconds; `x - y` on `Nat` truncates at 0, which agrees with the
JavaScript date subtraction wherever the comparison `< 3600000` is made
(a negative JS difference and a truncated-to-0 Lean difference both
satisfy the bound).
-/

namespace DiscordBot

/-- A normalized live/offline snapshot, as produced by
`checkYouTubeLiveStatus` in src/index.js: the offline object carries no
metadata, the live object carries the fields of the first search result. -/
inductive LiveStatus where
  | offline
  | live (videoId title thumbnailUrl channelTitle : String)
deriving Repr, DecidableEq

/-- The `isLive` field of the snapshot object. -/
def LiveStatus.isLive : LiveStatus → Bool
  | .offline => false
  | .live _ _ _ _ => true

/-- One item of the YouTube search response consumed by
`checkYouTubeLiveStatus` (`id.videoId`, `snippet.title`,
`snippet.thumbnails.high.url`, `snippet.channelTitle`). -/
structure SearchItem where
  videoId : String
  title : String
  thumbnailHighUrl : String
  channelTitle : String
deriving Repr, DecidableEq

/-- The HTTP response of the live-search call: `ok` is `response.ok`,
`items` is `data.items` (absent field modelled as `[]`). -/
structure ApiResponse where
  ok : Bool
  items : List SearchItem
deriving Repr, DecidableEq

/-- Embedding of `checkYouTubeLiveStatus` (src/index.js lines 471-506).
`none` models the `null` return (missing API key, thrown fetch error, or
non-ok response caught by the try/catch); otherwise zero items is the
normal offline case and one or more items yields a live snapshot built
from the first item. -/
def checkYouTubeLiveStatus (apiKeySet : Bool) (resp : ApiResponse) :
    Option LiveStatus :=
  if !apiKeySet then none
  else if !resp.ok then none
  else
    match resp.items with
    | [] => some .offline
    | item :: _ =>
        some (.live item.videoId item.title item.thumbnailHighUrl item.channelTitle)

/-! ## Identifier parsing (`getYoutubeIdentifier`, lines 399-425) -/

/-- The character class `[a-zA-Z0-9_-]` of the URL regexes. -/
def isIdChar (c : Char) : Bool :=
  c.isAlpha || c.isDigit || c == '_' || c == '-'

/-- Does `pat` occur at the head of `s`? -/
def matchesAt : List Char → List Char → Bool
  | [], _ => true
  | _ :: _, [] => false
  | p :: ps, c :: cs => p == c && matchesAt ps cs

/-- First occurrence of the literal `pat` in the string that is followed
by at least one `[a-zA-Z0-9_-]` character, returning the maximal run of
such characters after it.  This reproduces the JS regexes of
`getYoutubeIdentifier`: their protocol/`www.` groups are optional, so a
whole-regex match exists exactly at such a literal occurrence, and the
capture group is the greedy id-character run following it. -/
def findCapture (pat : List Char) : List Char → Option (List Char)
  | [] => none
  | c :: cs =>
      if matchesAt pat (c :: cs) then
        let cap := ((c :: cs).drop pat.length).takeWhile isIdChar
        if cap.isEmpty then findCapture pat cs else some cap
      else findCapture pat cs

/-- The classified identifier shapes of `getYoutubeIdentifier`. -/
inductive YtIdentifier where
  | id (value : String)
  | handle (value : String)
  | custom (value : String)
deriving Repr, DecidableEq

/-- Embedding of `getYoutubeIdentifier` (lines 399-425): strip the query
string, then try the `/channel/` pattern, the `/@` handle pattern, and
the `/c/` custom pattern in that order. -/
def getYoutubeIdentifier (url : String) : Option YtIdentifier :=
  let cleanUrl := url.toList.takeWhile (fun c => c ≠ '?')
  match findCapture "youtube.com/channel/".toList cleanUrl with
  | some v => some (.id (String.mk v))
  | none =>
    match findCapture "youtube.com/@".toList cleanUrl with
    | some v => some (.handle (String.mk v))
    | none =>
      match findCapture "youtube.com/c/".toList cleanUrl with
      | some v => some (.custom (String.mk v))
      | none => none

/-! ## Identifier resolution (`resolveToChannelId`, lines 428-468) -/

/-- The HTTP response of the `forHandle` channels call: `throws` models
the fetch itself throwing (caught by the function-level try/catch),
`ok` is `response.ok`, `ids` the `items[i].id` values. -/
structure HandleApiResponse where
  throws : Bool
  ok : Bool
  ids : List String
deriving Repr, DecidableEq

/-- One item of the channel-search response: `snippet.channelId` and
`id.channelId`, each possibly absent. -/
structure SearchApiItem where
  snippetChannelId : Option String
  idChannelId : Option String
deriving Repr, DecidableEq

/-- The HTTP response of the search-by-name call. -/
structure SearchApiResponse where
  throws : Bool
  ok : Bool
  items : List SearchApiItem
deriving Repr, DecidableEq

/-- `data.items[0].snippet.channelId || data.items[0].id.channelId`. -/
def searchItemChannelId (it : SearchApiItem) : Option String :=
  match it.snippetChannelId with
  | some s => some s
  | none => it.idChannelId

/-- Result of a resolution: the channel id (or `none` for
`UnresolvableIdentifier`) together with how many handle-lookup calls and
how many search calls were issued. -/
structure ResolveResult where
  channelId : Option String
  handleCalls : Nat
  searchCalls : Nat
deriving Repr, DecidableEq

/-- The shared search-by-name tail of `resolveToChannelId` (lines
452-463), reached by custom-url inputs and as the fallback of the handle
path; `handleCalls` records how many handle lookups happened before it. -/
def searchStep (sr : SearchApiResponse) (handleCalls : Nat) : ResolveResult :=
  if sr.throws then ⟨none, handleCalls, 1⟩
  else if sr.ok then
    match sr.items with
    | it :: _ => ⟨searchItemChannelId it, handleCalls, 1⟩
    | [] => ⟨none, handleCalls, 1⟩
  else ⟨none, handleCalls, 1⟩

/-- Embedding of `resolveToChannelId` (lines 428-468).  A direct id is
returned verbatim with no call; a handle issues one `forHandle` lookup
and, unless that lookup throws, falls through to the search call when it
is non-ok or empty; a custom name goes straight to the search call. -/
def resolveToChannelId (identifier : Option YtIdentifier)
    (hr : HandleApiResponse) (sr : SearchApiResponse) : ResolveResult :=
  match identifier with
  | none => ⟨none, 0, 0⟩
  | some (.id v) => ⟨some v, 0, 0⟩
  | some (.handle _) =>
      if hr.throws then ⟨none, 1, 0⟩
      else if hr.ok then
        match hr.ids with
        | i :: _ => ⟨some i, 1, 0⟩
        | [] => searchStep sr 1
      else searchStep sr 1
  | some (.custom _) => searchStep sr 0

/-! ## Channel registry and the `!addchannel` / `!removechannel` handlers -/

/-- One monitored-channel record, as pushed by the `addchannel` handler
(lines 644-651) and read by `scheduleChecks`.  `lastNotified` (an ISO
string in JS) is modelled as milliseconds; fields absent in JS are
`Option`s. -/
structure ChannelRecord where
  channelId : String
  channelName : String
  notificationChannelId : Option String
  addedBy : String
  addedAt : String
  isLive : Bool
  lastNotified : Option Nat
deriving Repr, DecidableEq

/-- The HTTP response of the channel-verification call of the
`addchannel` handler: `ok` is `response.ok`, `titles` the
`items[i].snippet.title` values. -/
structure ChannelsApiResponse where
  ok : Bool
  titles : List String
deriving Repr, DecidableEq

/-- Outcome tag of the `addchannel` handler. -/
inductive AddOutcome where
  | added
  | duplicate
  | notFound
  | apiError
deriving Repr, DecidableEq

/-- The record object pushed by the `addchannel` handler (lines
644-651): provenance from the message, `isLive` false, no
`lastNotified`. -/
def newChannelRecord (channelId channelName notificationChannelId addedBy addedAt :
    String) : ChannelRecord :=
  { channelId := channelId, channelName := channelName,
    notificationChannelId := some notificationChannelId,
    addedBy := addedBy, addedAt := addedAt, isLive := false, lastNotified := none }

/-- Embedding of the registry-mutating core of the `addchannel` handler
(lines 620-653), after the identifier has been resolved to `channelId`:
duplicate check against the registry first, then the verification call,
then the push of a fresh record.  The returned list is the registry
after the command (unchanged except in the `added` case). -/
def addChannel (registry : List ChannelRecord) (channelId : String)
    (verifyResp : ChannelsApiResponse)
    (notificationChannelId addedBy addedAt : String) :
    List ChannelRecord × AddOutcome :=
  match registry.find? (fun c => c.channelId == channelId) with
  | some _ => (registry, .duplicate)
  | none =>
      if !verifyResp.ok then (registry, .apiError)
      else
        match verifyResp.titles with
        | [] => (registry, .notFound)
        | channelName :: _ =>
            (registry ++ [newChannelRecord channelId channelName
              notificationChannelId addedBy addedAt], .added)

/-- `String.toLowerCase` followed by `toList`, for the case-insensitive
name match (ASCII, as in the test inputs). -/
def toLowerChars (s : String) : List Char := s.toList.map Char.toLower

/-- JS `hay.includes(needle)`. -/
def containsSubstr (hay needle : List Char) : Bool :=
  if matchesAt needle hay then true
  else
    match hay with
    | [] => false
    | _ :: t => containsSubstr t needle

/-- First phase of the `removechannel` handler (lines 675-688): if the
query parses as a channel URL and resolves, filter by exact channel id
and record whether anything was removed; otherwise leave the registry
as is with `removed = false`. -/
def removeByResolvedId (registry : List ChannelRecord) (query : String)
    (hr : HandleApiResponse) (sr : SearchApiResponse) :
    List ChannelRecord × Bool :=
  match getYoutubeIdentifier query with
  | none => (registry, false)
  | some idf =>
      match (resolveToChannelId (some idf) hr sr).channelId with
      | none => (registry, false)
      | some cid =>
          let filtered := registry.filter (fun c => !(c.channelId == cid))
          (filtered, filtered.length < registry.length)

/-- The case-insensitive substring test of line 694:
`c.channelName.toLowerCase().includes(query.toLowerCase())`. -/
def nameMatches (query : String) (c : ChannelRecord) : Bool :=
  containsSubstr (toLowerChars c.channelName) (toLowerChars query)

/-- Embedding of the `removechannel` handler (lines 672-704): the
id-removal phase, then — whenever it removed nothing (parse failure,
resolution failure, or no record with that id) — the fallback that
filters out every record whose name contains the query
case-insensitively.  Returns the new registry and the `removed` flag. -/
def removeChannel (registry : List ChannelRecord) (query : String)
    (hr : HandleApiResponse) (sr : SearchApiResponse) :
    List ChannelRecord × Bool :=
  let afterId := removeByResolvedId registry query hr sr
  if afterId.2 then (afterId.1, true)
  else
    let filtered := afterId.1.filter (fun c => !(nameMatches query c))
    (filtered, filtered.length < afterId.1.length)

/-! ## Transition engine: the tick body of `scheduleChecks` (lines 509-565) -/

/-- Outcome of the Discord delivery attempt for one notification:
`client.channels.fetch` may throw or yield a falsy channel, and
`discordChannel.send` may throw; otherwise delivery succeeds.  A thrown
promise rejection is uncaught inside the tick body, so it aborts the
whole tick. -/
inductive DeliveryOutcome where
  | fetchThrow
  | fetchNull
  | sendThrow
  | ok
deriving Repr, DecidableEq

/-- The external world for one channel within one tick: the probe
result (`none` = `ProbeFailed`, i.e. `checkYouTubeLiveStatus` returned
null) and the delivery outcome were a notification to be attempted. -/
structure Oracle where
  probe : Option LiveStatus
  delivery : DeliveryOutcome
deriving Repr, DecidableEq

/-- Result of processing one channel in one tick: the updated record,
whether a probe call was issued, whether a notification was sent, and
whether an uncaught exception aborted the tick. -/
structure StepResult where
  record : ChannelRecord
  probed : Bool
  notified : Bool
  aborted : Bool
deriving Repr, DecidableEq

/-- The cooldown guard of line 516:
`channel.lastNotified && (now - lastNotified) < 60 * 60 * 1000`. -/
def cooldownActive (now : Nat) (ch : ChannelRecord) : Bool :=
  match ch.lastNotified with
  | none => false
  | some t => now - t < 3600000

/-- Embedding of the per-channel body of the tick loop (lines 514-559):
cooldown skip; probe; on probe failure continue unchanged; on a live
snapshot with a notification target and a previous offline state,
attempt delivery (updating `isLive`/`lastNotified` only after a
successful send); on an offline snapshot with a previous live state,
clear `isLive`. -/
def stepChannel (now : Nat) (ch : ChannelRecord) (o : Oracle) : StepResult :=
  if cooldownActive now ch then ⟨ch, false, false, false⟩
  else
    match o.probe with
    | none => ⟨ch, true, false, false⟩
    | some st =>
        if st.isLive && ch.notificationChannelId.isSome then
          if ch.isLive then ⟨ch, true, false, false⟩
          else
            match o.delivery with
            | .fetchThrow => ⟨ch, true, false, true⟩
            | .fetchNull => ⟨ch, true, false, false⟩
            | .sendThrow => ⟨ch, true, false, true⟩
            | .ok => ⟨{ ch with isLive := true, lastNotified := some now },
                      true, true, false⟩
        else if !st.isLive && ch.isLive then
          ⟨{ ch with isLive := false }, true, false, false⟩
        else ⟨ch, true, false, false⟩

/-- One whole tick over the registry: channels are processed in order;
an uncaught delivery exception rejects the async tick function, so the
remaining channels keep their records untouched and are not evaluated.
Returns the updated records and the ids of the channels notified. -/
def runTick (now : Nat) : List (ChannelRecord × Oracle) →
    List ChannelRecord × List String
  | [] => ([], [])
  | (ch, o) :: rest =>
      let r := stepChannel now ch o
      if r.aborted then
        (r.record :: rest.map Prod.fst, if r.notified then [ch.channelId] else [])
      else
        (r.record :: (runTick now rest).1,
         (if r.notified then [ch.channelId] else []) ++ (runTick now rest).2)

/-- A single channel followed across a sequence of ticks, each tick
bringing a wall-clock time and an oracle; returns the final record and
the per-tick notification flags.  (Each tick is a fresh invocation of
the scheduled job, so an aborted tick only ends that tick.) -/
def runChannelTicks (ch : ChannelRecord) : List (Nat × Oracle) →
    ChannelRecord × List Bool
  | [] => (ch, [])
  | (now, o) :: rest =>
      let r := stepChannel now ch o
      ((runChannelTicks r.record rest).1,
       r.notified :: (runChannelTicks r.record rest).2)

/-- Did the probe of this oracle report a live snapshot? -/
def probeLive (o : Oracle) : Bool :=
  match o.probe with
  | some st => st.isLive
  | none => false

/-! ## Concrete fixtures used by the theorems -/

/-- A freshly added channel with a notification target. -/
def demoChannel : ChannelRecord :=
  { channelId := "UCdemo", channelName := "Demo",
    notificationChannelId := some "disc1", addedBy := "user", addedAt := "2024",
    isLive := false, lastNotified := none }

/-- A tick in which the probe reports live and delivery succeeds. -/
def oLive : Oracle :=
  { probe := some (.live "vid" "Title" "thumb" "Chan"), delivery := .ok }

/-- A tick in which the probe reports offline. -/
def oOff : Oracle := { probe := some .offline, delivery := .ok }

/-- A tick in which the probe fails (`checkYouTubeLiveStatus` returned null). -/
def oFail : Oracle := { probe := none, delivery := .ok }

/-- Three live snapshots 5 minutes apart: the whole sequence lasts 10
minutes, well inside the 1-hour cooldown window. -/
def demoTicks3 : List (Nat × Oracle) := [(0, oLive), (300000, oLive), (600000, oLive)]

/-- The same followed by an offline and a live snapshot spaced beyond
the cooldown window. -/
def demoTicks5 : List (Nat × Oracle) :=
  demoTicks3 ++ [(4000000, oOff), (4300000, oLive)]

/-! ## Lemmas on a single step under a live snapshot -/

/-- Under a live probe result, one step either fires the notification —
which requires the previous state to be offline and moves the record to
live with `lastNotified := now` — or it fires nothing and leaves the
record untouched. -/
lemma stepChannel_live_cases (now : Nat) (ch : ChannelRecord) (o : Oracle)
    (hl : probeLive o = true) :
    (stepChannel now ch o =
        ⟨{ ch with isLive := true, lastNotified := some now }, true, true, false⟩
      ∧ ch.isLive = false)
    ∨ ((stepChannel now ch o).record = ch ∧ (stepChannel now ch o).notified = false) := by
  obtain ⟨st, hp, hs⟩ : ∃ st, o.probe = some st ∧ st.isLive = true := by
    unfold probeLive at hl
    cases h : o.probe with
    | none => rw [h] at hl; cases hl
    | some st => exact ⟨st, rfl, by rw [h] at hl; exact hl⟩
  cases hc : cooldownActive now ch with
  | true => right; simp [stepChannel, hc]
  | false =>
    cases ht : ch.notificationChannelId with
    | none => right; simp [stepChannel, hc, hp, hs, ht]
    | some target =>
      cases hw : ch.isLive with
      | true => right; simp [stepChannel, hc, hp, hs, ht, hw]
      | false =>
        cases hd : o.delivery with
        | ok => left; exact ⟨by simp [stepChannel, hc, hp, hs, ht, hw, hd], rfl⟩
        | fetchThrow => right; simp [stepChannel, hc, hp, hs, ht, hw, hd]
        | fetchNull => right; simp [stepChannel, hc, hp, hs, ht, hw, hd]
        | sendThrow => right; simp [stepChannel, hc, hp, hs, ht, hw, hd]

/-- Once a record is live, a run of live snapshots fires nothing. -/
lemma runChannelTicks_count_zero (ticks : List (Nat × Oracle)) :
    ∀ ch : ChannelRecord, ch.isLive = true →
      (∀ p ∈ ticks, probeLive p.2 = true) →
      ((runChannelTicks ch ticks).2.count true) = 0 := by
  induction ticks with
  | nil => intro ch _ _; simp [runChannelTicks]
  | cons p rest ih =>
    intro ch hL hall
    obtain ⟨now, o⟩ := p
    have hl : probeLive o = true := hall (now, o) (List.mem_cons_self _ _)
    have hrest : ∀ q ∈ rest, probeLive q.2 = true :=
      fun q hq => hall q (List.mem_cons_of_mem _ hq)
    rcases stepChannel_live_cases now ch o hl with ⟨_, hfalse⟩ | ⟨hrec, hnot⟩
    · rw [hL] at hfalse; cases hfalse
    · simp only [runChannelTicks, hrec, hnot, List.count_cons]
      simpa using ih ch hL hrest

/-- Over any run of live snapshots, at most one notification fires. -/
lemma runChannelTicks_count_le_one (ticks : List (Nat × Oracle)) :
    ∀ ch : ChannelRecord, (∀ p ∈ ticks, probeLive p.2 = true) →
      ((runChannelTicks ch ticks).2.count true) ≤ 1 := by
  induction ticks with
  | nil => intro ch _; simp [runChannelTicks]
  | cons p rest ih =>
    intro ch hall
    obtain ⟨now, o⟩ := p
    have hl : probeLive o = true := hall (now, o) (List.mem_cons_self _ _)
    have hrest : ∀ q ∈ rest, probeLive q.2 = true :=
      fun q hq => hall q (List.mem_cons_of_mem _ hq)
    rcases stepChannel_live_cases now ch o hl with ⟨heq, _⟩ | ⟨hrec, hnot⟩
    · have h0 := runChannelTicks_count_zero rest
        { ch with isLive := true, lastNotified := some now } rfl hrest
      simp only [runChannelTicks, heq, List.count_cons]
      simp [h0]
    · simp only [runChannelTicks, hrec, hnot, List.count_cons]
      simpa using ih ch hrest

/-! ## Claim theorems: transition engine -/

/-- C1: a notification fires at most once per run of consecutive live
snapshots — stated for the record reached after any tick prefix, which
covers every maximal live run inside a longer sequence; on the concrete
snapshots `[live, live, live]` (10 minutes total, cooldown 1 hour)
exactly one notify occurs, on the first tick, and a subsequent
offline-then-live cycle beyond the cooldown window yields exactly one
more. -/
theorem at_most_one_notification_per_live_run :
    (∀ (ch : ChannelRecord) (pre seg : List (Nat × Oracle)),
        (∀ p ∈ seg, probeLive p.2 = true) →
        ((runChannelTicks (runChannelTicks ch pre).1 seg).2.count true) ≤ 1) ∧
    (runChannelTicks demoChannel demoTicks3).2 = [true, false, false] ∧
    (runChannelTicks demoChannel demoTicks5).2 = [true, false, false, false, true] :=
  ⟨fun _ pre seg hall => runChannelTicks_count_le_one seg (runChannelTicks _ pre).1 hall,
   by decide, by decide⟩

/-- Witness for C1 at the concrete three-live-tick sequence. -/
theorem at_most_one_notification_per_live_run_witness :
    ((runChannelTicks (runChannelTicks demoChannel []).1 demoTicks3).2.count true) ≤ 1 :=
  at_most_one_notification_per_live_run.1 demoChannel [] demoTicks3 (by decide)

/-- A record identical to `demoChannel` but with no notification target. -/
def chNoTarget : ChannelRecord := { demoChannel with notificationChannelId := none }

/-- C2 counterexample: on a tick whose probe reports live, a record with
no `notificationChannelId` is left completely unchanged — in particular
`isLive` is not updated to `true`, refuting the claim that the update
happens regardless of the notify target. -/
theorem live_probe_without_target_counterexample :
    probeLive oLive = true ∧ chNoTarget.isLive = false ∧
    (stepChannel 0 chNoTarget oLive).record = chNoTarget ∧
    ¬((stepChannel 0 chNoTarget oLive).record.isLive = true) := by decide

/-- C2 amended: both the `isLive` update and the notification are gated
on `notificationChannelId`.  With the target absent a live probe leaves
the record unchanged and emits nothing; with the target present, a
previous offline state, and a successful delivery, the record moves to
`isLive = true` together with the notification. -/
theorem isLive_update_gated_on_notify_target (now : Nat) (ch : ChannelRecord)
    (o : Oracle) (st : LiveStatus) (hc : cooldownActive now ch = false)
    (hp : o.probe = some st) (hs : st.isLive = true) :
    (ch.notificationChannelId = none →
        stepChannel now ch o = ⟨ch, true, false, false⟩) ∧
    (ch.notificationChannelId.isSome = true → ch.isLive = false → o.delivery = .ok →
        stepChannel now ch o =
          ⟨{ ch with isLive := true, lastNotified := some now }, true, true, false⟩) := by
  constructor
  · intro ht; simp [stepChannel, hc, hp, hs, ht]
  · intro ht hw hd; simp [stepChannel, hc, hp, hs, ht, hw, hd]

/-- Witness for the amended C2 at a concrete record without target. -/
theorem isLive_update_gated_on_notify_target_witness :
    stepChannel 5 chNoTarget oLive = ⟨chNoTarget, true, false, false⟩ :=
  (isLive_update_gated_on_notify_target 5 chNoTarget oLive
    (.live "vid" "Title" "thumb" "Chan") rfl rfl rfl).1 rfl

/-- C3: when `lastNotified` is set and strictly less than one hour has
elapsed, the channel is skipped this tick: no probe call is issued
(`probed = false`) and the record is returned unchanged. -/
theorem cooldown_skips_channel_entirely (now : Nat) (ch : ChannelRecord) (o : Oracle)
    (t : Nat) (ht : ch.lastNotified = some t) (hlt : now - t < 3600000) :
    stepChannel now ch o = ⟨ch, false, false, false⟩ := by
  have hc : cooldownActive now ch = true := by simp [cooldownActive, ht, hlt]
  simp [stepChannel, hc]

/-- A record notified at time 1000, probed again at time 2000. -/
def chCooling : ChannelRecord := { demoChannel with lastNotified := some 1000 }

/-- Witness for C3. -/
theorem cooldown_skips_channel_entirely_witness :
    stepChannel 2000 chCooling oLive = ⟨chCooling, false, false, false⟩ :=
  cooldown_skips_channel_entirely 2000 chCooling oLive 1000 rfl (by decide)

/-- C8: on a LIVE→OFFLINE edge (probed snapshot offline, previous
`isLive` true) the step sets `isLive := false`, emits no notification,
and leaves every other field — in particular `lastNotified` —
unchanged. -/
theorem offline_edge_clears_isLive_only (now : Nat) (ch : ChannelRecord) (o : Oracle)
    (st : LiveStatus) (hc : cooldownActive now ch = false) (hp : o.probe = some st)
    (hoff : st.isLive = false) (hlive : ch.isLive = true) :
    stepChannel now ch o = ⟨{ ch with isLive := false }, true, false, false⟩ := by
  simp [stepChannel, hc, hp, hoff, hlive]

/-- A currently live record whose cooldown has expired. -/
def chLiveLater : ChannelRecord :=
  { demoChannel with isLive := true, lastNotified := some 0 }

/-- Witness for C8 at time 4000000 (past the 1-hour window). -/
theorem offline_edge_clears_isLive_only_witness :
    stepChannel 4000000 chLiveLater oOff =
      ⟨{ chLiveLater with isLive := false }, true, false, false⟩ :=
  offline_edge_clears_isLive_only 4000000 chLiveLater oOff .offline rfl rfl rfl rfl

/-- C9: a `ProbeFailed` result for the first channel of a tick leaves
its record unchanged and the rest of the tick behaves exactly as if it
started at the remaining channels. -/
theorem probe_failure_is_isolated (now : Nat) (a : ChannelRecord) (o : Oracle)
    (rest : List (ChannelRecord × Oracle)) (hp : o.probe = none) :
    runTick now ((a, o) :: rest) = (a :: (runTick now rest).1, (runTick now rest).2) := by
  have hs : stepChannel now a o = ⟨a, !cooldownActive now a, false, false⟩ := by
    cases hc : cooldownActive now a <;> simp [stepChannel, hc, hp]
  simp [runTick, hs]

/-- Witness for C9: the probe for channel A fails, channel B is still
evaluated and notified in the same tick. -/
theorem probe_failure_is_isolated_witness :
    runTick 0 [(chNoTarget, oFail), (demoChannel, oLive)] =
      (chNoTarget :: (runTick 0 [(demoChannel, oLive)]).1,
       (runTick 0 [(demoChannel, oLive)]).2) :=
  probe_failure_is_isolated 0 chNoTarget oFail [(demoChannel, oLive)] rfl

/-- C10: if the delivery of a notification throws (channel fetch or
message send), the tick aborts at that channel: its `isLive` and
`lastNotified` are untouched, no notification is recorded, and every
remaining channel of the tick keeps its record unevaluated. -/
theorem delivery_failure_aborts_tick (now : Nat) (ch : ChannelRecord) (o : Oracle)
    (st : LiveStatus) (rest : List (ChannelRecord × Oracle))
    (hc : cooldownActive now ch = false) (hp : o.probe = some st)
    (hl : st.isLive = true) (ht : ch.notificationChannelId.isSome = true)
    (hw : ch.isLive = false) (hd : o.delivery = .fetchThrow ∨ o.delivery = .sendThrow) :
    runTick now ((ch, o) :: rest) = (ch :: rest.map Prod.fst, []) := by
  have hstep : stepChannel now ch o = ⟨ch, true, false, true⟩ := by
    rcases hd with hd | hd <;> simp [stepChannel, hc, hp, hl, ht, hw, hd]
  simp [runTick, hstep]

/-- An oracle whose delivery send throws. -/
def oSendThrow : Oracle :=
  { probe := some (.live "vid" "Title" "thumb" "Chan"), delivery := .sendThrow }

/-- Witness for C10: the throwing channel and the one after it both keep
their records, and nothing is notified. -/
theorem delivery_failure_aborts_tick_witness :
    runTick 7 [(demoChannel, oSendThrow), (chCooling, oLive)] =
      (demoChannel :: [(chCooling, oLive)].map Prod.fst, []) :=
  delivery_failure_aborts_tick 7 demoChannel oSendThrow
    (.live "vid" "Title" "thumb" "Chan") [(chCooling, oLive)]
    rfl rfl rfl rfl rfl (Or.inr rfl)

/-! ## Claim theorems: prober and resolver -/

/-- C4: with the API key set, a non-ok response yields `ProbeFailed`
(`none`); an ok response with no currently-live items yields the normal
offline snapshot (not an error); one or more items yields a live
snapshot carrying the video id of the first item, title, thumbnail and
channel title. -/
theorem probe_snapshot_contract (resp : ApiResponse) :
    (resp.ok = false → checkYouTubeLiveStatus true resp = none) ∧
    (resp.ok = true → resp.items = [] →
      checkYouTubeLiveStatus true resp = some .offline) ∧
    (∀ (item : SearchItem) (rest : List SearchItem), resp.ok = true →
      resp.items = item :: rest →
      checkYouTubeLiveStatus true resp =
        some (.live item.videoId item.title item.thumbnailHighUrl item.channelTitle)) := by
  refine ⟨fun h => ?_, fun h hi => ?_, fun item rest h hi => ?_⟩ <;>
    simp [checkYouTubeLiveStatus, h, *]

/-- Witness for C4 on the three response shapes. -/
theorem probe_snapshot_contract_witness :
    checkYouTubeLiveStatus true ⟨false, []⟩ = none ∧
    checkYouTubeLiveStatus true ⟨true, []⟩ = some .offline ∧
    checkYouTubeLiveStatus true ⟨true, [⟨"v", "t", "u", "c"⟩]⟩ =
      some (.live "v" "t" "u" "c") :=
  ⟨(probe_snapshot_contract ⟨false, []⟩).1 rfl,
   (probe_snapshot_contract ⟨true, []⟩).2.1 rfl rfl,
   (probe_snapshot_contract ⟨true, [⟨"v", "t", "u", "c"⟩]⟩).2.2
     ⟨"v", "t", "u", "c"⟩ [] rfl rfl⟩

/-- The search tail always issues exactly one search call and keeps the
handle-call count it was given. -/
lemma searchStep_calls (sr : SearchApiResponse) (h : Nat) :
    (searchStep sr h).handleCalls = h ∧ (searchStep sr h).searchCalls = 1 := by
  obtain ⟨th, ok, items⟩ := sr
  cases th <;> cases ok <;> cases items <;> simp [searchStep]

/-- If the search call throws, is non-ok or returns no items, the search
tail resolves nothing. -/
lemma searchStep_channelId_none (sr : SearchApiResponse) (h : Nat)
    (hfail : sr.throws = true ∨ sr.ok = false ∨ sr.items = []) :
    (searchStep sr h).channelId = none := by
  obtain ⟨th, ok, items⟩ := sr
  rcases hfail with h1 | h1 | h1 <;> simp only at h1 <;> subst h1
  · simp [searchStep]
  · cases th <;> simp [searchStep]
  · cases th <;> cases ok <;> simp [searchStep]

/-- C5: a direct-ID URL resolves to the extracted id verbatim with zero
external calls (shown both on the resolver and on the concrete URLs of
the spec); a handle issues exactly one handle lookup and falls back to
exactly one search call when the lookup comes back ok but empty; any
failure or empty result overall — on the handle path or the custom-name
path — resolves to `none` (`UnresolvableIdentifier`). -/
theorem resolver_contract :
    (∀ (v : String) (hr : HandleApiResponse) (sr : SearchApiResponse),
        resolveToChannelId (some (.id v)) hr sr = ⟨some v, 0, 0⟩) ∧
    getYoutubeIdentifier "https://www.youtube.com/channel/UC123" = some (.id "UC123") ∧
    getYoutubeIdentifier "https://www.youtube.com/@someHandle" =
      some (.handle "someHandle") ∧
    (∀ (v : String) (hr : HandleApiResponse) (sr : SearchApiResponse),
        hr.throws = false → hr.ok = true → hr.ids = [] →
        (resolveToChannelId (some (.handle v)) hr sr).handleCalls = 1 ∧
        (resolveToChannelId (some (.handle v)) hr sr).searchCalls = 1) ∧
    (∀ (v : String) (hr : HandleApiResponse) (sr : SearchApiResponse),
        (hr.throws = true ∨ hr.ok = false ∨ hr.ids = []) →
        (sr.throws = true ∨ sr.ok = false ∨ sr.items = []) →
        (resolveToChannelId (some (.handle v)) hr sr).channelId = none) ∧
    (∀ (v : String) (hr : HandleApiResponse) (sr : SearchApiResponse),
        (sr.throws = true ∨ sr.ok = false ∨ sr.items = []) →
        (resolveToChannelId (some (.custom v)) hr sr).channelId = none) := by
  refine ⟨fun v hr sr => rfl, by decide, by decide, ?_, ?_, ?_⟩
  · intro v hr sr h1 h2 h3
    simp [resolveToChannelId, h1, h2, h3, searchStep_calls]
  · intro v hr sr hh hsrch
    obtain ⟨th, ok, ids⟩ := hr
    rcases hh with h1 | h1 | h1 <;> simp only at h1 <;> subst h1
    · simp [resolveToChannelId]
    · cases th
      · simp [resolveToChannelId, searchStep_channelId_none _ _ hsrch]
      · simp [resolveToChannelId]
    · cases th
      · cases ok <;> simp [resolveToChannelId, searchStep_channelId_none _ _ hsrch]
      · simp [resolveToChannelId]
  · intro v hr sr hsrch
    simp [resolveToChannelId, searchStep_channelId_none _ _ hsrch]

/-- Witness for C5: the concrete direct-ID resolution from the spec, the
handle fallback call counts, and an unresolvable handle. -/
theorem resolver_contract_witness :
    resolveToChannelId (some (.id "UC123")) ⟨false, true, []⟩ ⟨false, true, []⟩ =
      ⟨some "UC123", 0, 0⟩ ∧
    (resolveToChannelId (some (.handle "someHandle")) ⟨false, true, []⟩
        ⟨false, true, []⟩).handleCalls = 1 ∧
    (resolveToChannelId (some (.handle "someHandle")) ⟨false, true, []⟩
        ⟨false, true, []⟩).searchCalls = 1 ∧
    (resolveToChannelId (some (.handle "someHandle")) ⟨false, false, []⟩
        ⟨false, false, []⟩).channelId = none :=
  ⟨resolver_contract.1 "UC123" ⟨false, true, []⟩ ⟨false, true, []⟩,
   (resolver_contract.2.2.2.1 "someHandle" ⟨false, true, []⟩ ⟨false, true, []⟩
      rfl rfl rfl).1,
   (resolver_contract.2.2.2.1 "someHandle" ⟨false, true, []⟩ ⟨false, true, []⟩
      rfl rfl rfl).2,
   resolver_contract.2.2.2.2.1 "someHandle" ⟨false, false, []⟩ ⟨false, false, []⟩
     (Or.inr (Or.inl rfl)) (Or.inr (Or.inl rfl))⟩

/-! ## Claim theorems: registry add/remove -/

/-- C6: when `addChannel` succeeds, the resulting registry contains
exactly one record with the added `channelId`; a second add with the
same id returns `duplicate` and leaves the registry unchanged; and
key-uniqueness of the registry is preserved. -/
theorem addChannel_key_unique (registry reg2 : List ChannelRecord) (cid : String)
    (resp resp2 : ChannelsApiResponse) (nt ab aa nt2 ab2 aa2 : String)
    (hadd : addChannel registry cid resp nt ab aa = (reg2, .added)) :
    reg2.countP (fun c => c.channelId == cid) = 1 ∧
    addChannel reg2 cid resp2 nt2 ab2 aa2 = (reg2, .duplicate) ∧
    ((registry.map fun c => c.channelId).Nodup →
      (reg2.map fun c => c.channelId).Nodup) := by
  cases hfind : registry.find? (fun c => c.channelId == cid) with
  | some c => simp [addChannel, hfind] at hadd
  | none =>
    cases hok : resp.ok with
    | false => simp [addChannel, hfind, hok] at hadd
    | true =>
      cases hti : resp.titles with
      | nil => simp [addChannel, hfind, hok, hti] at hadd
      | cons nm tl =>
        simp only [addChannel, hfind, hok, Bool.not_true, Bool.false_eq_true,
          if_false, hti, Prod.mk.injEq] at hadd
        obtain ⟨hreg2, -⟩ := hadd
        have hzero : registry.countP (fun c => c.channelId == cid) = 0 :=
          List.countP_eq_zero.mpr (List.find?_eq_none.mp hfind)
        refine ⟨?_, ?_, ?_⟩
        · rw [← hreg2, List.countP_append, hzero]
          simp [List.countP_cons, newChannelRecord]
        · have hmem : newChannelRecord cid nm nt ab aa ∈ reg2 := by
            rw [← hreg2]
            exact List.mem_append_right _ (List.mem_singleton_self _)
          have hsome : (reg2.find? (fun c => c.channelId == cid)).isSome = true :=
            List.find?_isSome.mpr ⟨_, hmem, by simp [newChannelRecord]⟩
          cases hf2 : reg2.find? (fun c => c.channelId == cid) with
          | none => rw [hf2] at hsome; cases hsome
          | some c => simp [addChannel, hf2]
        · intro hnd
          rw [← hreg2, List.map_append, List.nodup_append]
          refine ⟨hnd, by simp, ?_⟩
          have hmap : (([newChannelRecord cid nm nt ab aa] :
              List ChannelRecord).map fun c => c.channelId) = [cid] := rfl
          rw [hmap, List.disjoint_singleton]
          intro hmemcid
          obtain ⟨c, hc, hceq⟩ := List.mem_map.mp hmemcid
          have hne := List.find?_eq_none.mp hfind c hc
          simp only [beq_iff_eq] at hne
          exact hne hceq

/-- The registry after adding channel `UC1` to an empty registry. -/
def addedRegistry : List ChannelRecord :=
  [{ channelId := "UC1", channelName := "Name", notificationChannelId := some "d",
     addedBy := "u", addedAt := "t", isLive := false, lastNotified := none }]

/-- Witness for C6: add to the empty registry, then add again. -/
theorem addChannel_key_unique_witness :
    addedRegistry.countP (fun c => c.channelId == "UC1") = 1 ∧
    addChannel addedRegistry "UC1" ⟨true, ["Name"]⟩ "d" "u" "t" =
      (addedRegistry, .duplicate) ∧
    ((([] : List ChannelRecord).map fun c => c.channelId).Nodup →
      (addedRegistry.map fun c => c.channelId).Nodup) :=
  addChannel_key_unique [] addedRegistry "UC1" ⟨true, ["Name"]⟩ ⟨true, ["Name"]⟩
    "d" "u" "t" "d" "u" "t" (by decide)

/-- A registry whose single record has a key that differs from `UCBBB` but whose
display name contains the query URL as a substring. -/
def c7Registry : List ChannelRecord :=
  [{ channelId := "UCAAA", channelName := "see youtube.com/channel/UCBBB",
     notificationChannelId := some "d", addedBy := "u", addedAt := "t",
     isLive := false, lastNotified := none }]

/-- A handle-lookup response that is never consulted on the id path. -/
def hrUnused : HandleApiResponse := ⟨false, false, []⟩

/-- A search response that is never consulted on the id path. -/
def srUnused : SearchApiResponse := ⟨false, false, []⟩

/-- C7 counterexample: a remove query in exact-key URL form whose key
matches no record still deletes a record with a *different* key, via
the name-substring fallback — refuting "remove by exact channelKey
deletes only the record with that key". -/
theorem remove_by_key_counterexample :
    getYoutubeIdentifier "youtube.com/channel/UCBBB" = some (.id "UCBBB") ∧
    (∀ c ∈ c7Registry, c.channelId ≠ "UCBBB") ∧
    removeChannel c7Registry "youtube.com/channel/UCBBB" hrUnused srUnused =
      ([], true) := by decide

/-- Length bookkeeping of the id-removal phase: the `removed` flag is
true exactly when the registry shrank, and a false flag means the
registry kept its length. -/
lemma removeByResolvedId_length (registry : List ChannelRecord) (query : String)
    (hr : HandleApiResponse) (sr : SearchApiResponse) :
    ((removeByResolvedId registry query hr sr).2 = true →
        (removeByResolvedId registry query hr sr).1.length < registry.length) ∧
    ((removeByResolvedId registry query hr sr).2 = false →
        (removeByResolvedId registry query hr sr).1.length = registry.length) := by
  unfold removeByResolvedId
  cases hi : getYoutubeIdentifier query with
  | none => simp
  | some idf =>
    cases hres : (resolveToChannelId (some idf) hr sr).channelId with
    | none => simp [hres]
    | some cid =>
      simp only [hres]
      have hle := List.length_filter_le (fun c => !(c.channelId == cid)) registry
      constructor
      · intro h2; simpa using h2
      · intro h2; simp at h2; omega

/-- C7 amended: when the query is in exact-key URL form and the key
matches at least one record, only the records with that key are
deleted; when the query does not parse as a URL, all case-insensitive
name-substring matches are deleted, with `removed` true iff there was a
match; in general `removed` is true iff at least one record was
deleted; and an empty registry always reports `false`.  (When a
key-form query matches no record, the handler falls back to the
name-substring path — the behavior the counterexample exhibits.) -/
theorem removeChannel_fallback_contract :
    (∀ (registry : List ChannelRecord) (query : String) (hr : HandleApiResponse)
        (sr : SearchApiResponse) (idf : YtIdentifier) (cid : String),
        getYoutubeIdentifier query = some idf →
        (resolveToChannelId (some idf) hr sr).channelId = some cid →
        (∃ c ∈ registry, c.channelId = cid) →
        removeChannel registry query hr sr =
          (registry.filter (fun c => !(c.channelId == cid)), true)) ∧
    (∀ (registry : List ChannelRecord) (query : String) (hr : HandleApiResponse)
        (sr : SearchApiResponse),
        getYoutubeIdentifier query = none →
        (removeChannel registry query hr sr).1 =
          registry.filter (fun c => !(nameMatches query c)) ∧
        ((removeChannel registry query hr sr).2 = true ↔
          ∃ c ∈ registry, nameMatches query c = true)) ∧
    (∀ (registry : List ChannelRecord) (query : String) (hr : HandleApiResponse)
        (sr : SearchApiResponse),
        ((removeChannel registry query hr sr).2 = true ↔
          (removeChannel registry query hr sr).1.length < registry.length)) ∧
    (∀ (query : String) (hr : HandleApiResponse) (sr : SearchApiResponse),
        removeChannel [] query hr sr = ([], false)) := by
  refine ⟨?_, ?_, ?_, ?_⟩
  · intro registry query hr sr idf cid hid hres hex
    have hlt : (registry.filter (fun c => !(c.channelId == cid))).length
        < registry.length := by
      rw [List.length_filter_lt_length_iff_exists]
      obtain ⟨c, hc, hceq⟩ := hex
      exact ⟨c, hc, by simp [hceq]⟩
    simp [removeChannel, removeByResolvedId, hid, hres, hlt]
  · intro registry query hr sr hid
    constructor
    · simp [removeChannel, removeByResolvedId, hid]
    · simp [removeChannel, removeByResolvedId, hid,
        List.length_filter_lt_length_iff_exists]
  · intro registry query hr sr
    have hspec := removeByResolvedId_length registry query hr sr
    cases h2 : (removeByResolvedId registry query hr sr).2 with
    | true =>
      have hlt := hspec.1 h2
      simp [removeChannel, h2, hlt]
    | false =>
      have heq := hspec.2 h2
      simp only [removeChannel, h2, Bool.false_eq_true, if_false,
        decide_eq_true_eq]
      rw [heq]
  · intro query hr sr
    have hfst : removeByResolvedId [] query hr sr = ([], false) := by
      unfold removeByResolvedId
      cases hi : getYoutubeIdentifier query with
      | none => rfl
      | some idf =>
        cases hres : (resolveToChannelId (some idf) hr sr).channelId with
        | none => simp [hres]
        | some cid => simp [hres]
    simp [removeChannel, hfst]

/-- A registry holding exactly the channel the query names. -/
def removableRegistry : List ChannelRecord :=
  [{ channelId := "UC123", channelName := "Cool", notificationChannelId := some "d",
     addedBy := "u", addedAt := "t", isLive := false, lastNotified := none }]

/-- Witness for the amended C7: removing by a key-form URL that matches
deletes exactly the key-matching records. -/
theorem removeChannel_fallback_contract_witness :
    removeChannel removableRegistry "youtube.com/channel/UC123" hrUnused srUnused =
      (removableRegistry.filter (fun c => !(c.channelId == "UC123")), true) :=
  removeChannel_fallback_contract.1 removableRegistry "youtube.com/channel/UC123"
    hrUnused srUnused (.id "UC123") "UC123" (by decide) rfl (by decide)

end DiscordBot
